import Mathlib

/-!
Shallow embedding of `src/ImmutableList.js`: an "immutable list" layered
over JavaScript arrays.  The library settles an array either with the
native `Object.freeze` primitive or, when that is unavailable, by tagging
the array with the `__FROZEN_MARKER__` sentinel own-property, and offers a
build-once builder over the same representation.

JavaScript arrays are modelled as heap objects carrying an element list,
a `frozen` flag (set by `Object.freeze`, queried by `Object.isFrozen`)
and a `marker` flag (presence of the `__FROZEN_MARKER__` own property).
Reference identity of arrays is heap-address identity, and `array.slice()`
is a fresh allocation holding the same elements with both flags clear.
-/

namespace ImmutableList

/-- A JavaScript array object: its elements, whether `Object.freeze` has
been applied to it, and whether it carries the `__FROZEN_MARKER__`
sentinel own-property. -/
structure Obj (T : Type) where
  elems : List T
  frozen : Bool
  marker : Bool
deriving DecidableEq

/-- The two module-level configuration constants of `ImmutableList.js`:
`VERIFY_INVARIANTS` (`verify`) and `SUPPORTS_FROZEN` (`supportsFrozen`,
whether the host offers `Object.isFrozen` / `Object.freeze`). -/
structure Config where
  verify : Bool
  supportsFrozen : Bool
deriving DecidableEq

/-- A heap address; two arrays are the same reference exactly when their
addresses coincide. -/
abbrev Ref := Nat

/-- The heap of allocated array objects, addressed by position. -/
structure Heap (T : Type) where
  objs : List (Obj T)
deriving DecidableEq

/-- Dereference an address (a dummy empty object for dangling refs). -/
def Heap.get (h : Heap T) (r : Ref) : Obj T :=
  h.objs.getD r ⟨[], false, false⟩

/-- `r` is the address of an allocated object. -/
def Heap.valid (h : Heap T) (r : Ref) : Prop :=
  r < h.objs.length

/-- Overwrite the object at address `r` (in-place mutation of the array
that `r` references). -/
def Heap.set (h : Heap T) (r : Ref) (o : Obj T) : Heap T :=
  ⟨h.objs.set r o⟩

/-- Allocate a fresh array object, returning the new heap and the fresh
address. -/
def Heap.alloc (h : Heap T) (o : Obj T) : Heap T × Ref :=
  (⟨h.objs ++ [o]⟩, h.objs.length)

/-- Address of the module-level constant `EMPTY_LIST`, allocated when
the module is initialised. -/
def EMPTY_REF : Ref := 0

/-- The object `EMPTY_LIST` is initialised to:
`(SUPPORTS_FROZEN && VERIFY_INVARIANTS) ? Object.freeze([]) : []`. -/
def emptyListObj (cfg : Config) : Obj T :=
  ⟨[], cfg.supportsFrozen && cfg.verify, false⟩

/-- The heap right after module initialisation: only `EMPTY_LIST` is
allocated, at address `EMPTY_REF`. -/
def initHeap (cfg : Config) : Heap T :=
  ⟨[emptyListObj cfg]⟩

/-- `_freeze` from the source: identity when `VERIFY_INVARIANTS` is
false; `Object.freeze` when the primitive is supported; otherwise tag the
value with the sentinel marker property.  Always returns the same
reference it was given. -/
def _freeze (cfg : Config) (h : Heap T) (r : Ref) : Heap T × Ref :=
  if !cfg.verify then (h, r)
  else if cfg.supportsFrozen then (h.set r { h.get r with frozen := true }, r)
  else (h.set r { h.get r with marker := true }, r)

/-- `fromLoneReference`: freeze the caller's array in place and return it
reinterpreted as an `ImmutableList` (the cast is erased in the model). -/
def fromLoneReference (cfg : Config) (h : Heap T) (r : Ref) : Heap T × Ref :=
  _freeze cfg h r

/-- `copyOf`: canonical empty list for an empty input; the input itself
when `SUPPORTS_FROZEN && Object.isFrozen(array)`; otherwise
`fromLoneReference(array.slice())`. -/
def copyOf (cfg : Config) (h : Heap T) (r : Ref) : Heap T × Ref :=
  if (h.get r).elems.length = 0 then (h, EMPTY_REF)
  else if cfg.supportsFrozen && (h.get r).frozen then (h, r)
  else
    let p := h.alloc ⟨(h.get r).elems, false, false⟩
    fromLoneReference cfg p.1 p.2

/-- `toArray`: `list.slice()` — a fresh, unfrozen, unmarked array with the
same elements. -/
def toArray (h : Heap T) (r : Ref) : Heap T × Ref :=
  h.alloc ⟨(h.get r).elems, false, false⟩

/-- `newBuilder`: a fresh empty array used as the builder. -/
def newBuilder (h : Heap T) : Heap T × Ref :=
  h.alloc ⟨[], false, false⟩

/-- `newBuilderFromImmutableList`: `list.slice()` used as the builder. -/
def newBuilderFromImmutableList (h : Heap T) (r : Ref) : Heap T × Ref :=
  h.alloc ⟨(h.get r).elems, false, false⟩

/-- `_assertNotBuilt`, as the decision whether the already-built error is
raised: never when `VERIFY_INVARIANTS` is false; else `Object.isFrozen`
when supported, else `hasOwnProperty(__FROZEN_MARKER__)`. -/
def _assertNotBuilt (cfg : Config) (o : Obj T) : Bool :=
  if !cfg.verify then false
  else if cfg.supportsFrozen then o.frozen
  else o.marker

/-- The message of the already-built violation. -/
def alreadyBuiltMsg : String :=
  "build() has already been invoked"

/-- `add(builder, ...items)`: assert not built, then
`push.apply(builder, items)` — append all items at once, in order. -/
def add (cfg : Config) (h : Heap T) (r : Ref) (items : List T) :
    Except String (Heap T) :=
  if _assertNotBuilt cfg (h.get r) then .error alreadyBuiltMsg
  else .ok (h.set r { h.get r with elems := (h.get r).elems ++ items })

/-- The `for (const item of items) builder.push(item)` loop of `addAll`,
as its effect on the builder object. -/
def pushLoop (o : Obj T) : List T → Obj T
  | [] => o
  | i :: rest => pushLoop { o with elems := o.elems ++ [i] } rest

/-- `addAll(builder, items)`: assert not built, then push the items one
at a time in iteration order. -/
def addAll (cfg : Config) (h : Heap T) (r : Ref) (items : List T) :
    Except String (Heap T) :=
  if _assertNotBuilt cfg (h.get r) then .error alreadyBuiltMsg
  else .ok (h.set r (pushLoop (h.get r) items))

/-- `build(builder)`: assert not built, then `_freeze(builder)`
reinterpreted as the immutable list (same reference, no copy). -/
def build (cfg : Config) (h : Heap T) (r : Ref) :
    Except String (Heap T × Ref) :=
  if _assertNotBuilt cfg (h.get r) then .error alreadyBuiltMsg
  else .ok (_freeze cfg h r)

/-- One builder call in a construction trace: a variadic `add` or a bulk
`addAll`. -/
inductive BOp (T : Type) where
  | addOp : List T → BOp T
  | addAllOp : List T → BOp T
deriving DecidableEq

/-- The items a trace step appends. -/
def BOp.items : BOp T → List T
  | .addOp l => l
  | .addAllOp l => l

/-- Run one builder call against the heap. -/
def runOp (cfg : Config) (h : Heap T) (r : Ref) : BOp T → Except String (Heap T)
  | .addOp items => add cfg h r items
  | .addAllOp items => addAll cfg h r items

/-- Run a finite series of `add`/`addAll` calls in order. -/
def runOps (cfg : Config) (h : Heap T) (r : Ref) :
    List (BOp T) → Except String (Heap T)
  | [] => .ok h
  | op :: rest =>
    match runOp cfg h r op with
    | .error e => .error e
    | .ok h' => runOps cfg h' r rest

/-! ### Heap lemmas -/

theorem Heap.length_set (h : Heap T) (r : Ref) (o : Obj T) :
    (h.set r o).objs.length = h.objs.length := by
  simp [Heap.set]

theorem Heap.get_set_self (h : Heap T) (r : Ref) (o : Obj T)
    (hv : r < h.objs.length) : (h.set r o).get r = o := by
  simp [Heap.get, Heap.set, List.getD_eq_getElem?_getD,
    List.getElem?_set_eq_of_lt _ hv]

theorem Heap.get_set_ne (h : Heap T) (r r' : Ref) (o : Obj T)
    (hne : r' ≠ r) : (h.set r' o).get r = h.get r := by
  simp [Heap.get, Heap.set, List.getD_eq_getElem?_getD,
    List.getElem?_set_ne hne]

theorem Heap.get_alloc_old (h : Heap T) (o : Obj T) (r : Ref)
    (hv : r < h.objs.length) : (h.alloc o).1.get r = h.get r := by
  simp [Heap.get, Heap.alloc, List.getD_eq_getElem?_getD,
    List.getElem?_append_left hv]

theorem Heap.get_alloc_fresh (h : Heap T) (o : Obj T) :
    (h.alloc o).1.get (h.alloc o).2 = o := by
  simp [Heap.get, Heap.alloc, List.getD_eq_getElem?_getD]

theorem Heap.length_alloc (h : Heap T) (o : Obj T) :
    (h.alloc o).1.objs.length = h.objs.length + 1 := by
  simp [Heap.alloc]

/-! ### Behaviour of `_freeze` -/

theorem _freeze_ref (cfg : Config) (h : Heap T) (r : Ref) :
    (_freeze cfg h r).2 = r := by
  rcases cfg with ⟨v, s⟩
  cases v <;> cases s <;> simp [_freeze]

theorem _freeze_length (cfg : Config) (h : Heap T) (r : Ref) :
    (_freeze cfg h r).1.objs.length = h.objs.length := by
  rcases cfg with ⟨v, s⟩
  cases v <;> cases s <;> simp [_freeze, Heap.length_set]

theorem _freeze_get_elems (cfg : Config) (h : Heap T) (r : Ref)
    (hv : r < h.objs.length) :
    ((_freeze cfg h r).1.get r).elems = (h.get r).elems := by
  rcases cfg with ⟨v, s⟩
  cases v <;> cases s <;>
    simp [_freeze, Heap.get_set_self _ _ _ hv]

theorem _freeze_get_other (cfg : Config) (h : Heap T) (r r' : Ref)
    (hne : r ≠ r') : (_freeze cfg h r).1.get r' = h.get r' := by
  rcases cfg with ⟨v, s⟩
  cases v <;> cases s <;>
    simp [_freeze, Heap.get_set_ne _ _ _ _ hne]

theorem _freeze_noVerify (cfg : Config) (h : Heap T) (r : Ref)
    (hv : cfg.verify = false) : _freeze cfg h r = (h, r) := by
  simp [_freeze, hv]

theorem _freeze_frozenMode (cfg : Config) (h : Heap T) (r : Ref)
    (hv : cfg.verify = true) (hs : cfg.supportsFrozen = true) :
    _freeze cfg h r = (h.set r { h.get r with frozen := true }, r) := by
  simp [_freeze, hv, hs]

theorem _freeze_markerMode (cfg : Config) (h : Heap T) (r : Ref)
    (hv : cfg.verify = true) (hs : cfg.supportsFrozen = false) :
    _freeze cfg h r = (h.set r { h.get r with marker := true }, r) := by
  simp [_freeze, hv, hs]

/-! ### Branch lemmas for `copyOf` -/

theorem copyOf_empty (cfg : Config) (h : Heap T) (r : Ref)
    (he : (h.get r).elems = []) : copyOf cfg h r = (h, EMPTY_REF) := by
  simp [copyOf, he]

theorem copyOf_frozen (cfg : Config) (h : Heap T) (r : Ref)
    (he : (h.get r).elems ≠ []) (hs : cfg.supportsFrozen = true)
    (hf : (h.get r).frozen = true) : copyOf cfg h r = (h, r) := by
  simp [copyOf, hs, hf, List.length_eq_zero, he]

theorem copyOf_copies (cfg : Config) (h : Heap T) (r : Ref)
    (he : (h.get r).elems ≠ [])
    (hnf : cfg.supportsFrozen = false ∨ (h.get r).frozen = false) :
    copyOf cfg h r =
      _freeze cfg (h.alloc ⟨(h.get r).elems, false, false⟩).1
        (h.alloc ⟨(h.get r).elems, false, false⟩).2 := by
  have hcond : (cfg.supportsFrozen && (h.get r).frozen) = false := by
    rcases hnf with hnf | hnf <;> simp [hnf]
  simp [copyOf, hcond, List.length_eq_zero, he, fromLoneReference]

/-! ### Builder-operation lemmas -/

theorem _assertNotBuilt_open (cfg : Config) (o : Obj T)
    (hf : o.frozen = false) (hm : o.marker = false) :
    _assertNotBuilt cfg o = false := by
  rcases cfg with ⟨v, s⟩
  cases v <;> cases s <;> simp [_assertNotBuilt, hf, hm]

theorem assert_after_freeze (cfg : Config) (h : Heap T) (r : Ref)
    (hv : r < h.objs.length) :
    _assertNotBuilt cfg ((_freeze cfg h r).1.get r) = cfg.verify := by
  rcases cfg with ⟨v, s⟩
  cases v <;> cases s <;>
    simp [_freeze, _assertNotBuilt, Heap.get_set_self _ _ _ hv]

theorem add_open (cfg : Config) (h : Heap T) (r : Ref) (items : List T)
    (hopen : _assertNotBuilt cfg (h.get r) = false) :
    add cfg h r items
      = .ok (h.set r { h.get r with elems := (h.get r).elems ++ items }) := by
  simp [add, hopen]

theorem addAll_open (cfg : Config) (h : Heap T) (r : Ref) (items : List T)
    (hopen : _assertNotBuilt cfg (h.get r) = false) :
    addAll cfg h r items = .ok (h.set r (pushLoop (h.get r) items)) := by
  simp [addAll, hopen]

theorem build_open (cfg : Config) (h : Heap T) (r : Ref)
    (hopen : _assertNotBuilt cfg (h.get r) = false) :
    build cfg h r = .ok ((_freeze cfg h r).1, r) := by
  have h2 := _freeze_ref cfg h r
  simp [build, hopen]
  exact Prod.ext rfl h2

theorem add_error_iff (cfg : Config) (h : Heap T) (r : Ref) (items : List T) :
    (add cfg h r items = .error alreadyBuiltMsg)
      ↔ _assertNotBuilt cfg (h.get r) = true := by
  cases hb : _assertNotBuilt cfg (h.get r) <;> simp [add, hb]

theorem addAll_error_iff (cfg : Config) (h : Heap T) (r : Ref) (items : List T) :
    (addAll cfg h r items = .error alreadyBuiltMsg)
      ↔ _assertNotBuilt cfg (h.get r) = true := by
  cases hb : _assertNotBuilt cfg (h.get r) <;> simp [addAll, hb]

theorem build_error_iff (cfg : Config) (h : Heap T) (r : Ref) :
    (build cfg h r = .error alreadyBuiltMsg)
      ↔ _assertNotBuilt cfg (h.get r) = true := by
  cases hb : _assertNotBuilt cfg (h.get r) <;> simp [build, hb]

theorem add_isOk (cfg : Config) (h : Heap T) (r : Ref) (items : List T) :
    (add cfg h r items).isOk = !(_assertNotBuilt cfg (h.get r)) := by
  cases hb : _assertNotBuilt cfg (h.get r) <;> simp [add, hb, Except.isOk, Except.toBool]

theorem addAll_isOk (cfg : Config) (h : Heap T) (r : Ref) (items : List T) :
    (addAll cfg h r items).isOk = !(_assertNotBuilt cfg (h.get r)) := by
  cases hb : _assertNotBuilt cfg (h.get r) <;> simp [addAll, hb, Except.isOk, Except.toBool]

theorem build_isOk (cfg : Config) (h : Heap T) (r : Ref) :
    (build cfg h r).isOk = !(_assertNotBuilt cfg (h.get r)) := by
  cases hb : _assertNotBuilt cfg (h.get r) <;> simp [build, hb, Except.isOk, Except.toBool]

theorem pushLoop_eq (o : Obj T) (items : List T) :
    pushLoop o items = { o with elems := o.elems ++ items } := by
  induction items generalizing o with
  | nil => simp [pushLoop]
  | cons i rest ih => simp [pushLoop, ih]

theorem runOp_open (cfg : Config) (h : Heap T) (b : Ref) (op : BOp T)
    (hf : (h.get b).frozen = false) (hm : (h.get b).marker = false) :
    runOp cfg h b op
      = .ok (h.set b { h.get b with elems := (h.get b).elems ++ op.items }) := by
  have hopen := _assertNotBuilt_open cfg (h.get b) hf hm
  cases op with
  | addOp its => simp [runOp, add, hopen, BOp.items]
  | addAllOp its => simp [runOp, addAll, hopen, BOp.items, pushLoop_eq]

theorem runOps_open (cfg : Config) (ops : List (BOp T)) :
    ∀ (h : Heap T) (b : Ref), b < h.objs.length →
      (h.get b).frozen = false → (h.get b).marker = false →
      ∃ h2, runOps cfg h b ops = .ok h2 ∧
        h2.objs.length = h.objs.length ∧
        (h2.get b).elems = (h.get b).elems ++ (ops.map BOp.items).flatten ∧
        (h2.get b).frozen = false ∧ (h2.get b).marker = false := by
  induction ops with
  | nil =>
    intro h b _ hf hm
    exact ⟨h, rfl, rfl, by simp, hf, hm⟩
  | cons op rest ih =>
    intro h b hv hf hm
    have hstep := runOp_open cfg h b op hf hm
    have hv1 : b < (h.set b { h.get b with
        elems := (h.get b).elems ++ op.items }).objs.length := by
      rw [Heap.length_set]
      exact hv
    have hget1 : (h.set b { h.get b with
          elems := (h.get b).elems ++ op.items }).get b
        = { h.get b with elems := (h.get b).elems ++ op.items } :=
      Heap.get_set_self h b _ hv
    obtain ⟨h2, hrun, hlen, hel, hf2, hm2⟩ :=
      ih _ b hv1 (by rw [hget1]; exact hf) (by rw [hget1]; exact hm)
    refine ⟨h2, ?_, ?_, ?_, hf2, hm2⟩
    · simp only [runOps, hstep]
      exact hrun
    · rw [hlen, Heap.length_set]
    · rw [hel, hget1]
      simp [List.append_assoc]

theorem alloc_fresh_spec (h : Heap T) (o : Obj T) (r : Ref)
    (hv : r < h.objs.length) :
    (h.alloc o).2 ≠ r ∧ (h.alloc o).1.get (h.alloc o).2 = o ∧
    (h.alloc o).1.get r = h.get r ∧
    ∀ o' : Obj T, ((h.alloc o).1.set (h.alloc o).2 o').get r = h.get r := by
  have hner : (h.alloc o).2 ≠ r := (ne_of_lt hv).symm
  refine ⟨hner, Heap.get_alloc_fresh h o, Heap.get_alloc_old h o r hv, ?_⟩
  intro o'
  rw [Heap.get_set_ne _ _ _ _ hner]
  exact Heap.get_alloc_old h o r hv

/-! ### The claims -/

/-- Claim C1, counterexample: under the sentinel-marker fallback
(`VERIFY_INVARIANTS` true, no freeze primitive), a non-empty array that
`_freeze` has marked settled via the sentinel marker is NOT returned
unchanged by `copyOf`: the result is a fresh reference, because `copyOf`
only tests `SUPPORTS_FROZEN && Object.isFrozen(array)` and never checks
the sentinel marker. -/
theorem C1_counterexample :
    (copyOf ⟨true, false⟩
      (_freeze ⟨true, false⟩
        (⟨[⟨[], false, false⟩, ⟨[1], false, false⟩]⟩ : Heap Nat) 1).1 1).2 ≠ 1 := by
  decide

/-- Claim C1, amended: for every non-empty sequence settled via the
native freeze primitive (freeze primitive available), `copyOf` returns
the very same reference and leaves the heap untouched — no copy, no
re-marking.  (Under the sentinel-marker fallback `copyOf` does not
detect settledness and copies.) -/
theorem C1_copyOf_settled_identity (cfg : Config) (h : Heap T) (r : Ref)
    (hs : cfg.supportsFrozen = true) (hf : (h.get r).frozen = true)
    (hne : (h.get r).elems ≠ []) :
    copyOf cfg h r = (h, r) :=
  copyOf_frozen cfg h r hne hs hf

/-- Witness for the amended claim C1 at a concrete heap. -/
theorem C1_copyOf_settled_identity_witness :
    copyOf (⟨true, true⟩ : Config)
        (⟨[⟨[], true, false⟩, ⟨[5], true, false⟩]⟩ : Heap Nat) 1
      = (⟨[⟨[], true, false⟩, ⟨[5], true, false⟩]⟩, 1) :=
  C1_copyOf_settled_identity ⟨true, true⟩ _ 1 (by decide) (by decide) (by decide)

/-- Claim C2, counterexample: when `VERIFY_INVARIANTS` is false (freeze
primitive available), `copyOf` of a non-empty array yields an unfrozen
copy, so a second `copyOf` copies again and returns a different
reference — `copyOf` is not idempotent in every configuration. -/
theorem C2_counterexample :
    (copyOf ⟨false, true⟩
        (copyOf ⟨false, true⟩
          (⟨[⟨[], false, false⟩, ⟨[1], false, false⟩]⟩ : Heap Nat) 1).1
        (copyOf ⟨false, true⟩
          (⟨[⟨[], false, false⟩, ⟨[1], false, false⟩]⟩ : Heap Nat) 1).2).2
      ≠ (copyOf ⟨false, true⟩
          (⟨[⟨[], false, false⟩, ⟨[1], false, false⟩]⟩ : Heap Nat) 1).2 := by
  decide

/-- Claim C2, amended: `copyOf (copyOf s)` returns the exact result of
`copyOf s` (same reference, heap unchanged) whenever `VERIFY_INVARIANTS`
is true and the freeze primitive is available; in the remaining
configurations idempotence still holds for empty inputs (via the
canonical empty list) but can fail for non-empty ones. -/
theorem C2_copyOf_idempotent (cfg : Config) (h : Heap T) (r : Ref)
    (hwf : (h.get EMPTY_REF).elems = [])
    (hcase : (cfg.verify = true ∧ cfg.supportsFrozen = true)
      ∨ (h.get r).elems = []) :
    copyOf cfg (copyOf cfg h r).1 (copyOf cfg h r).2 = copyOf cfg h r := by
  by_cases he : (h.get r).elems = []
  · rw [copyOf_empty cfg h r he]
    exact copyOf_empty cfg h EMPTY_REF hwf
  · rcases hcase with ⟨hv, hs⟩ | he'
    · by_cases hf : (h.get r).frozen = true
      · rw [copyOf_frozen cfg h r he hs hf]
        exact copyOf_frozen cfg h r he hs hf
      · rw [copyOf_copies cfg h r he (Or.inr (by simpa using hf))]
        rw [_freeze_frozenMode cfg _ _ hv hs]
        have hgn : (h.alloc ⟨(h.get r).elems, false, false⟩).1.get
              (h.alloc ⟨(h.get r).elems, false, false⟩).2
            = ⟨(h.get r).elems, false, false⟩ := Heap.get_alloc_fresh h _
        have hv2 : (h.alloc ⟨(h.get r).elems, false, false⟩).2
            < (h.alloc ⟨(h.get r).elems, false, false⟩).1.objs.length := by
          rw [Heap.length_alloc]
          exact Nat.lt_succ_self _
        have hg2 : ((h.alloc ⟨(h.get r).elems, false, false⟩).1.set
              (h.alloc ⟨(h.get r).elems, false, false⟩).2
              { (h.alloc ⟨(h.get r).elems, false, false⟩).1.get
                  (h.alloc ⟨(h.get r).elems, false, false⟩).2 with
                frozen := true }).get
              (h.alloc ⟨(h.get r).elems, false, false⟩).2
            = ⟨(h.get r).elems, true, false⟩ := by
          rw [Heap.get_set_self _ _ _ hv2, hgn]
        exact copyOf_frozen cfg _ _ (by rw [hg2]; exact he) hs (by rw [hg2])
    · exact absurd he' he

/-- Witness for the amended claim C2 at a concrete heap. -/
theorem C2_copyOf_idempotent_witness :
    copyOf (⟨true, true⟩ : Config)
        (copyOf ⟨true, true⟩
          (⟨[⟨[], true, false⟩, ⟨[7], false, false⟩]⟩ : Heap Nat) 1).1
        (copyOf ⟨true, true⟩
          (⟨[⟨[], true, false⟩, ⟨[7], false, false⟩]⟩ : Heap Nat) 1).2
      = copyOf ⟨true, true⟩
          (⟨[⟨[], true, false⟩, ⟨[7], false, false⟩]⟩ : Heap Nat) 1 :=
  C2_copyOf_idempotent ⟨true, true⟩ _ 1 (by decide) (Or.inl ⟨rfl, rfl⟩)

/-- Claim C3: on an OPEN builder `add`, `addAll` and `build` never raise;
once `build` has been invoked on it, a subsequent `add`, `addAll` or
`build` raises the already-built error exactly when `VERIFY_INVARIANTS`
is true, and when it is false the same calls raise nothing and silently
proceed. -/
theorem C3_already_built_iff_verify (cfg : Config) (h : Heap T) (r : Ref)
    (hv : r < h.objs.length)
    (hf : (h.get r).frozen = false) (hm : (h.get r).marker = false)
    (items : List T) :
    (add cfg h r items).isOk = true ∧
    (addAll cfg h r items).isOk = true ∧
    (build cfg h r).isOk = true ∧
    build cfg h r = .ok ((_freeze cfg h r).1, r) ∧
    ((add cfg (_freeze cfg h r).1 r items = .error alreadyBuiltMsg)
      ↔ cfg.verify = true) ∧
    ((addAll cfg (_freeze cfg h r).1 r items = .error alreadyBuiltMsg)
      ↔ cfg.verify = true) ∧
    ((build cfg (_freeze cfg h r).1 r = .error alreadyBuiltMsg)
      ↔ cfg.verify = true) ∧
    (cfg.verify = false →
      (add cfg (_freeze cfg h r).1 r items).isOk = true ∧
      (addAll cfg (_freeze cfg h r).1 r items).isOk = true ∧
      (build cfg (_freeze cfg h r).1 r).isOk = true) := by
  have hopen := _assertNotBuilt_open cfg (h.get r) hf hm
  have hbuilt := assert_after_freeze cfg h r hv
  refine ⟨?_, ?_, ?_, build_open cfg h r hopen, ?_, ?_, ?_, ?_⟩
  · rw [add_isOk, hopen]
    rfl
  · rw [addAll_isOk, hopen]
    rfl
  · rw [build_isOk, hopen]
    rfl
  · rw [add_error_iff, hbuilt]
  · rw [addAll_error_iff, hbuilt]
  · rw [build_error_iff, hbuilt]
  · intro hvf
    rw [add_isOk, addAll_isOk, build_isOk, hbuilt, hvf]
    exact ⟨rfl, rfl, rfl⟩

/-- Witness for claim C3 at a concrete open builder. -/
theorem C3_already_built_iff_verify_witness :
    (add ⟨true, true⟩ (⟨[⟨[], false, false⟩]⟩ : Heap Nat) 0 [1]).isOk = true ∧
    (addAll ⟨true, true⟩ (⟨[⟨[], false, false⟩]⟩ : Heap Nat) 0 [1]).isOk = true ∧
    (build ⟨true, true⟩ (⟨[⟨[], false, false⟩]⟩ : Heap Nat) 0).isOk = true ∧
    build ⟨true, true⟩ (⟨[⟨[], false, false⟩]⟩ : Heap Nat) 0
      = .ok ((_freeze ⟨true, true⟩ (⟨[⟨[], false, false⟩]⟩ : Heap Nat) 0).1, 0) ∧
    ((add ⟨true, true⟩
        (_freeze ⟨true, true⟩ (⟨[⟨[], false, false⟩]⟩ : Heap Nat) 0).1 0 [1]
        = .error alreadyBuiltMsg) ↔ (⟨true, true⟩ : Config).verify = true) ∧
    ((addAll ⟨true, true⟩
        (_freeze ⟨true, true⟩ (⟨[⟨[], false, false⟩]⟩ : Heap Nat) 0).1 0 [1]
        = .error alreadyBuiltMsg) ↔ (⟨true, true⟩ : Config).verify = true) ∧
    ((build ⟨true, true⟩
        (_freeze ⟨true, true⟩ (⟨[⟨[], false, false⟩]⟩ : Heap Nat) 0).1 0
        = .error alreadyBuiltMsg) ↔ (⟨true, true⟩ : Config).verify = true) ∧
    ((⟨true, true⟩ : Config).verify = false →
      (add ⟨true, true⟩
        (_freeze ⟨true, true⟩ (⟨[⟨[], false, false⟩]⟩ : Heap Nat) 0).1 0 [1]).isOk
          = true ∧
      (addAll ⟨true, true⟩
        (_freeze ⟨true, true⟩ (⟨[⟨[], false, false⟩]⟩ : Heap Nat) 0).1 0 [1]).isOk
          = true ∧
      (build ⟨true, true⟩
        (_freeze ⟨true, true⟩ (⟨[⟨[], false, false⟩]⟩ : Heap Nat) 0).1 0).isOk
          = true) :=
  C3_already_built_iff_verify ⟨true, true⟩ _ 0 (by decide) (by decide) (by decide) [1]

/-- Claim C4: starting from a fresh OPEN builder, every finite series of
`add` (variadic) and `addAll` (bulk) calls succeeds, and `build` returns
a view whose contents equal the concatenation, in call order, of all the
items appended — so the same items appended individually, in one
variadic call, or via one bulk call all yield equal contents. -/
theorem C4_build_contents (cfg : Config) (h : Heap T) (ops : List (BOp T)) :
    ∃ h2 h3,
      runOps cfg (newBuilder h).1 (newBuilder h).2 ops = .ok h2 ∧
      build cfg h2 (newBuilder h).2 = .ok (h3, (newBuilder h).2) ∧
      (h3.get (newBuilder h).2).elems = (ops.map BOp.items).flatten := by
  have hv : (newBuilder h).2 < (newBuilder h).1.objs.length := by
    simp [newBuilder, Heap.alloc]
  have hget : (newBuilder h).1.get (newBuilder h).2 = ⟨[], false, false⟩ :=
    Heap.get_alloc_fresh h _
  obtain ⟨h2, hrun, hlen, hel, hf2, hm2⟩ :=
    runOps_open cfg ops (newBuilder h).1 (newBuilder h).2 hv
      (by rw [hget]) (by rw [hget])
  have hopen2 := _assertNotBuilt_open cfg (h2.get (newBuilder h).2) hf2 hm2
  refine ⟨h2, (_freeze cfg h2 (newBuilder h).2).1, hrun,
    build_open cfg h2 (newBuilder h).2 hopen2, ?_⟩
  have hv2 : (newBuilder h).2 < h2.objs.length := by
    rw [hlen]
    exact hv
  rw [_freeze_get_elems cfg h2 (newBuilder h).2 hv2, hel, hget]
  simp

/-- Claim C5: `fromLoneReference` returns its argument itself (same
reference), allocates no new sequence, preserves the elements, and marks
the array settled: frozen when the freeze primitive is available,
sentinel-tagged otherwise, and when `VERIFY_INVARIANTS` is false it is
an identity no-op that leaves the heap — and hence the array's frozen
and sentinel status — unchanged. -/
theorem C5_fromLoneReference_spec (cfg : Config) (h : Heap T) (r : Ref)
    (hv : r < h.objs.length) :
    (fromLoneReference cfg h r).2 = r ∧
    (fromLoneReference cfg h r).1.objs.length = h.objs.length ∧
    ((fromLoneReference cfg h r).1.get r).elems = (h.get r).elems ∧
    (cfg.verify = true → cfg.supportsFrozen = true →
      ((fromLoneReference cfg h r).1.get r).frozen = true) ∧
    (cfg.verify = true → cfg.supportsFrozen = false →
      ((fromLoneReference cfg h r).1.get r).marker = true) ∧
    (cfg.verify = false → (fromLoneReference cfg h r).1 = h) := by
  rcases cfg with ⟨v, s⟩
  cases v <;> cases s <;>
    simp [fromLoneReference, _freeze, Heap.length_set,
      Heap.get_set_self _ _ _ hv]

/-- Witness for claim C5 at a concrete heap. -/
theorem C5_fromLoneReference_spec_witness :
    (fromLoneReference ⟨true, true⟩ (⟨[⟨[2], false, false⟩]⟩ : Heap Nat) 0).2 = 0 ∧
    (fromLoneReference ⟨true, true⟩
        (⟨[⟨[2], false, false⟩]⟩ : Heap Nat) 0).1.objs.length
      = (⟨[⟨[2], false, false⟩]⟩ : Heap Nat).objs.length ∧
    ((fromLoneReference ⟨true, true⟩
        (⟨[⟨[2], false, false⟩]⟩ : Heap Nat) 0).1.get 0).elems
      = ((⟨[⟨[2], false, false⟩]⟩ : Heap Nat).get 0).elems ∧
    ((⟨true, true⟩ : Config).verify = true →
      (⟨true, true⟩ : Config).supportsFrozen = true →
      ((fromLoneReference ⟨true, true⟩
        (⟨[⟨[2], false, false⟩]⟩ : Heap Nat) 0).1.get 0).frozen = true) ∧
    ((⟨true, true⟩ : Config).verify = true →
      (⟨true, true⟩ : Config).supportsFrozen = false →
      ((fromLoneReference ⟨true, true⟩
        (⟨[⟨[2], false, false⟩]⟩ : Heap Nat) 0).1.get 0).marker = true) ∧
    ((⟨true, true⟩ : Config).verify = false →
      (fromLoneReference ⟨true, true⟩ (⟨[⟨[2], false, false⟩]⟩ : Heap Nat) 0).1
        = ⟨[⟨[2], false, false⟩]⟩) :=
  C5_fromLoneReference_spec ⟨true, true⟩ _ 0 (by decide)

/-- Claim C6: for any two logically empty arrays — distinct instances
included — `copyOf` returns the single canonical empty immutable value
(`EMPTY_LIST`) for both, the two results are reference-identical to each
other, and nothing is allocated (the heap is unchanged). -/
theorem C6_copyOf_canonical_empty (cfg : Config) (h : Heap T) (r1 r2 : Ref)
    (he1 : (h.get r1).elems = []) (he2 : (h.get r2).elems = []) :
    (copyOf cfg h r1).2 = (copyOf cfg h r2).2 ∧
    (copyOf cfg h r1).2 = EMPTY_REF ∧
    (copyOf cfg h r1).1 = h ∧ (copyOf cfg h r2).1 = h := by
  rw [copyOf_empty cfg h r1 he1, copyOf_empty cfg h r2 he2]
  exact ⟨rfl, rfl, rfl, rfl⟩

/-- Witness for claim C6 with two distinct empty instances. -/
theorem C6_copyOf_canonical_empty_witness :
    (copyOf (⟨true, true⟩ : Config)
        (⟨[⟨[], true, false⟩, ⟨[], false, false⟩, ⟨[], false, false⟩]⟩ : Heap Nat)
        1).2
      = (copyOf ⟨true, true⟩
        (⟨[⟨[], true, false⟩, ⟨[], false, false⟩, ⟨[], false, false⟩]⟩ : Heap Nat)
        2).2 ∧
    (copyOf ⟨true, true⟩
        (⟨[⟨[], true, false⟩, ⟨[], false, false⟩, ⟨[], false, false⟩]⟩ : Heap Nat)
        1).2 = EMPTY_REF ∧
    (copyOf ⟨true, true⟩
        (⟨[⟨[], true, false⟩, ⟨[], false, false⟩, ⟨[], false, false⟩]⟩ : Heap Nat)
        1).1 = ⟨[⟨[], true, false⟩, ⟨[], false, false⟩, ⟨[], false, false⟩]⟩ ∧
    (copyOf ⟨true, true⟩
        (⟨[⟨[], true, false⟩, ⟨[], false, false⟩, ⟨[], false, false⟩]⟩ : Heap Nat)
        2).1 = ⟨[⟨[], true, false⟩, ⟨[], false, false⟩, ⟨[], false, false⟩]⟩ :=
  C6_copyOf_canonical_empty ⟨true, true⟩ _ 1 2 (by decide) (by decide)

/-- Claim C7: for a non-settled (neither frozen nor sentinel-tagged)
non-empty array, `copyOf` returns a reference distinct from the input
whose elements equal the input's in content and order, and the input
object itself — length, elements and settled status — is untouched. -/
theorem C7_copyOf_fresh_copy (cfg : Config) (h : Heap T) (r : Ref)
    (hv : r < h.objs.length) (hne : (h.get r).elems ≠ [])
    (hf : (h.get r).frozen = false) (hm : (h.get r).marker = false) :
    (copyOf cfg h r).2 ≠ r ∧
    ((copyOf cfg h r).1.get (copyOf cfg h r).2).elems = (h.get r).elems ∧
    (copyOf cfg h r).1.get r = h.get r := by
  rw [copyOf_copies cfg h r hne (Or.inr hf)]
  have hvfresh : (h.alloc ⟨(h.get r).elems, false, false⟩).2
      < (h.alloc ⟨(h.get r).elems, false, false⟩).1.objs.length := by
    rw [Heap.length_alloc]
    exact Nat.lt_succ_self _
  have hner : (h.alloc (⟨(h.get r).elems, false, false⟩ : Obj T)).2 ≠ r :=
    (ne_of_lt hv).symm
  refine ⟨?_, ?_, ?_⟩
  · rw [_freeze_ref]
    exact hner
  · rw [_freeze_ref, _freeze_get_elems _ _ _ hvfresh, Heap.get_alloc_fresh]
  · rw [_freeze_get_other cfg _ _ r hner]
    exact Heap.get_alloc_old h _ r hv

/-- Witness for claim C7 at a concrete heap. -/
theorem C7_copyOf_fresh_copy_witness :
    (copyOf (⟨true, true⟩ : Config) (⟨[⟨[3], false, false⟩]⟩ : Heap Nat) 0).2 ≠ 0 ∧
    ((copyOf ⟨true, true⟩ (⟨[⟨[3], false, false⟩]⟩ : Heap Nat) 0).1.get
        (copyOf ⟨true, true⟩ (⟨[⟨[3], false, false⟩]⟩ : Heap Nat) 0).2).elems
      = ((⟨[⟨[3], false, false⟩]⟩ : Heap Nat).get 0).elems ∧
    (copyOf ⟨true, true⟩ (⟨[⟨[3], false, false⟩]⟩ : Heap Nat) 0).1.get 0
      = (⟨[⟨[3], false, false⟩]⟩ : Heap Nat).get 0 :=
  C7_copyOf_fresh_copy ⟨true, true⟩ _ 0 (by decide) (by decide) (by decide)
    (by decide)

/-- Claim C8: `toArray` returns a fresh (reference-distinct), fully
mutable (unfrozen, unmarked) array with the view's elements in order,
sharing no top-level state with the view: the view is unchanged by the
call, and any subsequent mutation of the returned array leaves the
view's object — its length and elements — unchanged. -/
theorem C8_toArray_fresh_mutable (h : Heap T) (r : Ref)
    (hv : r < h.objs.length) :
    (toArray h r).2 ≠ r ∧
    ((toArray h r).1.get (toArray h r).2).elems = (h.get r).elems ∧
    ((toArray h r).1.get (toArray h r).2).frozen = false ∧
    ((toArray h r).1.get (toArray h r).2).marker = false ∧
    (toArray h r).1.get r = h.get r ∧
    ∀ o : Obj T, ((toArray h r).1.set (toArray h r).2 o).get r = h.get r := by
  simp only [toArray]
  obtain ⟨h1, h2, h3, h4⟩ :=
    alloc_fresh_spec h (⟨(h.get r).elems, false, false⟩ : Obj T) r hv
  exact ⟨h1, by rw [h2], by rw [h2], by rw [h2], h3, h4⟩

/-- Witness for claim C8 at a concrete heap. -/
theorem C8_toArray_fresh_mutable_witness :
    (toArray (⟨[⟨[8, 9], true, false⟩]⟩ : Heap Nat) 0).2 ≠ 0 ∧
    ((toArray (⟨[⟨[8, 9], true, false⟩]⟩ : Heap Nat) 0).1.get
        (toArray (⟨[⟨[8, 9], true, false⟩]⟩ : Heap Nat) 0).2).elems
      = ((⟨[⟨[8, 9], true, false⟩]⟩ : Heap Nat).get 0).elems ∧
    ((toArray (⟨[⟨[8, 9], true, false⟩]⟩ : Heap Nat) 0).1.get
        (toArray (⟨[⟨[8, 9], true, false⟩]⟩ : Heap Nat) 0).2).frozen = false ∧
    ((toArray (⟨[⟨[8, 9], true, false⟩]⟩ : Heap Nat) 0).1.get
        (toArray (⟨[⟨[8, 9], true, false⟩]⟩ : Heap Nat) 0).2).marker = false ∧
    (toArray (⟨[⟨[8, 9], true, false⟩]⟩ : Heap Nat) 0).1.get 0
      = (⟨[⟨[8, 9], true, false⟩]⟩ : Heap Nat).get 0 ∧
    (∀ o : Obj Nat,
      ((toArray (⟨[⟨[8, 9], true, false⟩]⟩ : Heap Nat) 0).1.set
          (toArray (⟨[⟨[8, 9], true, false⟩]⟩ : Heap Nat) 0).2 o).get 0
        = (⟨[⟨[8, 9], true, false⟩]⟩ : Heap Nat).get 0) :=
  C8_toArray_fresh_mutable _ 0 (by decide)

/-- Claim C9: `newBuilderFromImmutableList` returns an OPEN (unfrozen,
unmarked) builder, reference-distinct from the view, pre-populated with
a duplicate of the view's elements in order, not aliasing the view's
storage: the view is unchanged by the call and by any later `add` on the
returned builder, which always succeeds. -/
theorem C9_newBuilderFromImmutableList_spec (cfg : Config) (h : Heap T)
    (r : Ref) (hv : r < h.objs.length) :
    (newBuilderFromImmutableList h r).2 ≠ r ∧
    ((newBuilderFromImmutableList h r).1.get
        (newBuilderFromImmutableList h r).2).elems = (h.get r).elems ∧
    ((newBuilderFromImmutableList h r).1.get
        (newBuilderFromImmutableList h r).2).frozen = false ∧
    ((newBuilderFromImmutableList h r).1.get
        (newBuilderFromImmutableList h r).2).marker = false ∧
    (newBuilderFromImmutableList h r).1.get r = h.get r ∧
    ∀ items : List T, ∃ h2,
      add cfg (newBuilderFromImmutableList h r).1
          (newBuilderFromImmutableList h r).2 items = .ok h2 ∧
        h2.get r = h.get r := by
  simp only [newBuilderFromImmutableList]
  obtain ⟨h1, h2, h3, h4⟩ :=
    alloc_fresh_spec h (⟨(h.get r).elems, false, false⟩ : Obj T) r hv
  refine ⟨h1, by rw [h2], by rw [h2], by rw [h2], h3, ?_⟩
  intro items
  have hopen : _assertNotBuilt cfg
      ((h.alloc (⟨(h.get r).elems, false, false⟩ : Obj T)).1.get
        (h.alloc (⟨(h.get r).elems, false, false⟩ : Obj T)).2) = false := by
    rw [h2]
    exact _assertNotBuilt_open cfg _ rfl rfl
  exact ⟨_, add_open cfg _ _ items hopen, h4 _⟩

/-- Witness for claim C9 at a concrete heap. -/
theorem C9_newBuilderFromImmutableList_spec_witness :
    (newBuilderFromImmutableList (⟨[⟨[6], true, false⟩]⟩ : Heap Nat) 0).2 ≠ 0 ∧
    ((newBuilderFromImmutableList (⟨[⟨[6], true, false⟩]⟩ : Heap Nat) 0).1.get
        (newBuilderFromImmutableList (⟨[⟨[6], true, false⟩]⟩ : Heap Nat) 0).2).elems
      = ((⟨[⟨[6], true, false⟩]⟩ : Heap Nat).get 0).elems ∧
    ((newBuilderFromImmutableList (⟨[⟨[6], true, false⟩]⟩ : Heap Nat) 0).1.get
        (newBuilderFromImmutableList (⟨[⟨[6], true, false⟩]⟩ : Heap Nat) 0).2).frozen
      = false ∧
    ((newBuilderFromImmutableList (⟨[⟨[6], true, false⟩]⟩ : Heap Nat) 0).1.get
        (newBuilderFromImmutableList (⟨[⟨[6], true, false⟩]⟩ : Heap Nat) 0).2).marker
      = false ∧
    (newBuilderFromImmutableList (⟨[⟨[6], true, false⟩]⟩ : Heap Nat) 0).1.get 0
      = (⟨[⟨[6], true, false⟩]⟩ : Heap Nat).get 0 ∧
    (∀ items : List Nat, ∃ h2,
      add (⟨true, true⟩ : Config)
          (newBuilderFromImmutableList (⟨[⟨[6], true, false⟩]⟩ : Heap Nat) 0).1
          (newBuilderFromImmutableList (⟨[⟨[6], true, false⟩]⟩ : Heap Nat) 0).2
          items = .ok h2 ∧
        h2.get 0 = (⟨[⟨[6], true, false⟩]⟩ : Heap Nat).get 0) :=
  C9_newBuilderFromImmutableList_spec ⟨true, true⟩ _ 0 (by decide)

/-- Claim C10: the builder returned by `newBuilderFromImmutableList` on a
settled view — frozen or sentinel-tagged — is not itself considered
built: `add`, `addAll` and `build` on it all succeed without raising the
already-built error, in every configuration (including
`VERIFY_INVARIANTS` true), because the element-wise duplicate inherits
neither the frozen status nor the sentinel marker. -/
theorem C10_builder_from_settled_is_open (cfg : Config) (h : Heap T)
    (r : Ref) (items : List T)
    (hsettled : (h.get r).frozen = true ∨ (h.get r).marker = true) :
    (add cfg (newBuilderFromImmutableList h r).1
        (newBuilderFromImmutableList h r).2 items).isOk = true ∧
    (addAll cfg (newBuilderFromImmutableList h r).1
        (newBuilderFromImmutableList h r).2 items).isOk = true ∧
    (build cfg (newBuilderFromImmutableList h r).1
        (newBuilderFromImmutableList h r).2).isOk = true := by
  have hget : (newBuilderFromImmutableList h r).1.get
        (newBuilderFromImmutableList h r).2
      = ⟨(h.get r).elems, false, false⟩ := Heap.get_alloc_fresh h _
  have hopen : _assertNotBuilt cfg ((newBuilderFromImmutableList h r).1.get
      (newBuilderFromImmutableList h r).2) = false := by
    rw [hget]
    exact _assertNotBuilt_open cfg _ rfl rfl
  rw [add_isOk, addAll_isOk, build_isOk, hopen]
  exact ⟨rfl, rfl, rfl⟩

/-- Witness for claim C10 at a concrete frozen view with verification
enabled. -/
theorem C10_builder_from_settled_is_open_witness :
    (add (⟨true, true⟩ : Config)
        (newBuilderFromImmutableList (⟨[⟨[4], true, false⟩]⟩ : Heap Nat) 0).1
        (newBuilderFromImmutableList (⟨[⟨[4], true, false⟩]⟩ : Heap Nat) 0).2
        [9]).isOk = true ∧
    (addAll (⟨true, true⟩ : Config)
        (newBuilderFromImmutableList (⟨[⟨[4], true, false⟩]⟩ : Heap Nat) 0).1
        (newBuilderFromImmutableList (⟨[⟨[4], true, false⟩]⟩ : Heap Nat) 0).2
        [9]).isOk = true ∧
    (build (⟨true, true⟩ : Config)
        (newBuilderFromImmutableList (⟨[⟨[4], true, false⟩]⟩ : Heap Nat) 0).1
        (newBuilderFromImmutableList (⟨[⟨[4], true, false⟩]⟩ : Heap Nat) 0).2).isOk
      = true :=
  C10_builder_from_settled_is_open ⟨true, true⟩ _ 0 [9] (Or.inl (by decide))

end ImmutableList
